import Mathlib

/-!
Shallow embedding of `src/fees.rs` from the baby-punk-swap repository.

The Rust module defines a `Fees` record of sixteen `u64` fields (eight
numerator/denominator pairs), eight checked fee functions over the 256-bit
unsigned type `crate::bn::U256`, a normalized trade fee, and a fixed
128-byte little-endian codec implementing the Solana `Pack` trait.

Machine integers are modelled as `Nat` with explicit bounds: a `u64` value
is a `Nat` below `2 ^ 64`, a `U256` value a `Nat` below `2 ^ 256`.  Checked
operations return `Option Nat`.  The codec operates on byte buffers
modelled as `List Nat` whose elements are below 256; since the Rust
`array_ref!` / `array_mut_ref!` macros panic (rather than return an error)
when the buffer is shorter than 128 bytes, codec outcomes are modelled by
`PanicOr`, which distinguishes a panic from a returned `ProgramError` and
from success.
-/

set_option maxRecDepth 8000
set_option maxHeartbeats 1600000

namespace BabyPunkSwap

/-- The `Fees` struct of `src/fees.rs` (lines 13-46): eight fee categories,
each a numerator/denominator pair of `u64` values.  Fields are `Nat`;
`Fees.wf` states the `u64` range bound. -/
@[ext]
structure Fees where
  admin_trade_fee_numerator : Nat
  admin_trade_fee_denominator : Nat
  admin_withdraw_fee_numerator : Nat
  admin_withdraw_fee_denominator : Nat
  trade_fee_numerator : Nat
  trade_fee_denominator : Nat
  withdraw_fee_numerator : Nat
  withdraw_fee_denominator : Nat
  reflection_fee_numerator : Nat
  reflection_fee_denominator : Nat
  buyback_fee_numerator : Nat
  buyback_fee_denominator : Nat
  marketing_fee_numerator : Nat
  marketing_fee_denominator : Nat
  developer_fee_numerator : Nat
  developer_fee_denominator : Nat
deriving DecidableEq, Repr

/-- A `Fees` value is representable when every field fits in a `u64`. -/
def Fees.wf (f : Fees) : Prop :=
  f.admin_trade_fee_numerator < 2 ^ 64 ∧
  f.admin_trade_fee_denominator < 2 ^ 64 ∧
  f.admin_withdraw_fee_numerator < 2 ^ 64 ∧
  f.admin_withdraw_fee_denominator < 2 ^ 64 ∧
  f.trade_fee_numerator < 2 ^ 64 ∧
  f.trade_fee_denominator < 2 ^ 64 ∧
  f.withdraw_fee_numerator < 2 ^ 64 ∧
  f.withdraw_fee_denominator < 2 ^ 64 ∧
  f.reflection_fee_numerator < 2 ^ 64 ∧
  f.reflection_fee_denominator < 2 ^ 64 ∧
  f.buyback_fee_numerator < 2 ^ 64 ∧
  f.buyback_fee_denominator < 2 ^ 64 ∧
  f.marketing_fee_numerator < 2 ^ 64 ∧
  f.marketing_fee_denominator < 2 ^ 64 ∧
  f.developer_fee_numerator < 2 ^ 64 ∧
  f.developer_fee_denominator < 2 ^ 64

instance (f : Fees) : Decidable f.wf := by
  unfold Fees.wf; infer_instance

/-- Modelled from the spec: `crate::bn::U256::checked_mul` (the `bn` module is
not under `src/`); the spec requires an overflow-checked multiply on an
unsigned type with at least 256 bits of range, so the product is returned
exactly when it does not exceed `U256::MAX = 2 ^ 256 - 1`. -/
def checkedMul256 (a b : Nat) : Option Nat :=
  if a * b < 2 ^ 256 then some (a * b) else none

/-- Modelled from the spec: `crate::bn::U256::checked_div` (the `bn` module is
not under `src/`); checked floor division, failing exactly on a zero
divisor. -/
def checkedDiv256 (a b : Nat) : Option Nat :=
  if b = 0 then none else some (a / b)

/-- Rust `u64::checked_mul` on values below `2 ^ 64`. -/
def checkedMul64 (a b : Nat) : Option Nat :=
  if a * b < 2 ^ 64 then some (a * b) else none

/-- Rust `u64::checked_div`: floor division, failing exactly on a zero
divisor. -/
def checkedDiv64 (a b : Nat) : Option Nat :=
  if b = 0 then none else some (a / b)

/-- Rust `u64::checked_sub`: failing exactly on underflow. -/
def checkedSub64 (a b : Nat) : Option Nat :=
  if b ≤ a then some (a - b) else none

/-- `Fees::admin_trade_fee` (fees.rs lines 50-54). -/
def Fees.admin_trade_fee (f : Fees) (fee_amount : Nat) : Option Nat :=
  (checkedMul256 fee_amount f.admin_trade_fee_numerator).bind fun p =>
    checkedDiv256 p f.admin_trade_fee_denominator

/-- `Fees::admin_withdraw_fee` (fees.rs lines 57-61). -/
def Fees.admin_withdraw_fee (f : Fees) (fee_amount : Nat) : Option Nat :=
  (checkedMul256 fee_amount f.admin_withdraw_fee_numerator).bind fun p =>
    checkedDiv256 p f.admin_withdraw_fee_denominator

/-- `Fees::trade_fee` (fees.rs lines 64-68). -/
def Fees.trade_fee (f : Fees) (trade_amount : Nat) : Option Nat :=
  (checkedMul256 trade_amount f.trade_fee_numerator).bind fun p =>
    checkedDiv256 p f.trade_fee_denominator

/-- `Fees::withdraw_fee` (fees.rs lines 71-75). -/
def Fees.withdraw_fee (f : Fees) (withdraw_amount : Nat) : Option Nat :=
  (checkedMul256 withdraw_amount f.withdraw_fee_numerator).bind fun p =>
    checkedDiv256 p f.withdraw_fee_denominator

/-- `Fees::reflection_fee` (fees.rs lines 78-82). -/
def Fees.reflection_fee (f : Fees) (reflection_amount : Nat) : Option Nat :=
  (checkedMul256 reflection_amount f.reflection_fee_numerator).bind fun p =>
    checkedDiv256 p f.reflection_fee_denominator

/-- `Fees::buyback_fee` (fees.rs lines 85-89). -/
def Fees.buyback_fee (f : Fees) (buyback_amount : Nat) : Option Nat :=
  (checkedMul256 buyback_amount f.buyback_fee_numerator).bind fun p =>
    checkedDiv256 p f.buyback_fee_denominator

/-- `Fees::marketing_fee` (fees.rs lines 92-96). -/
def Fees.marketing_fee (f : Fees) (marketing_amount : Nat) : Option Nat :=
  (checkedMul256 marketing_amount f.marketing_fee_numerator).bind fun p =>
    checkedDiv256 p f.marketing_fee_denominator

/-- `Fees::developer_fee` (fees.rs lines 99-103). -/
def Fees.developer_fee (f : Fees) (developer_amount : Nat) : Option Nat :=
  (checkedMul256 developer_amount f.developer_fee_numerator).bind fun p =>
    checkedDiv256 p f.developer_fee_denominator

/-- `Fees::normalized_trade_fee` (fees.rs lines 106-116):
`trade_fee_numerator.checked_mul(n_coins)?` then
`.checked_div((n_coins.checked_sub(1)?).checked_mul(4)?)?` (all in `u64`),
then `amount.checked_mul(adjusted)?.checked_div(trade_fee_denominator)`
in `U256`. -/
def Fees.normalized_trade_fee (f : Fees) (n_coins : Nat) (amount : Nat) :
    Option Nat :=
  (checkedMul64 f.trade_fee_numerator n_coins).bind fun p =>
  (checkedSub64 n_coins 1).bind fun m =>
  (checkedMul64 m 4).bind fun d =>
  (checkedDiv64 p d).bind fun adjusted_trade_fee_numerator =>
  (checkedMul256 amount adjusted_trade_fee_numerator).bind fun q =>
  checkedDiv256 q f.trade_fee_denominator

/-- The concrete ledger used by the module's own tests (fees.rs lines
209-242): the sequential pattern 1..16 across the sixteen fields. -/
def testFees : Fees :=
  { admin_trade_fee_numerator := 1
    admin_trade_fee_denominator := 2
    admin_withdraw_fee_numerator := 3
    admin_withdraw_fee_denominator := 4
    trade_fee_numerator := 5
    trade_fee_denominator := 6
    withdraw_fee_numerator := 7
    withdraw_fee_denominator := 8
    reflection_fee_numerator := 9
    reflection_fee_denominator := 10
    buyback_fee_numerator := 11
    buyback_fee_denominator := 12
    marketing_fee_numerator := 13
    marketing_fee_denominator := 14
    developer_fee_numerator := 15
    developer_fee_denominator := 16 }

example : testFees.trade_fee 1000000000 = some 833333333 := by decide

example : testFees.normalized_trade_fee 2 1000000000 = some 333333333 := by
  decide

example : testFees.normalized_trade_fee 1 1000000000 = none := by decide

example : testFees.normalized_trade_fee 0 1000000000 = none := by decide

/-- The one `solana_program::program_error::ProgramError` variant relevant to
this codec: `InvalidAccountData`, raised by the `Pack` trait's provided
length-checking wrappers. -/
inductive ProgramError where
  | invalidAccountData
deriving DecidableEq, Repr

/-- Outcome of a Rust call that may panic: the `array_ref!` and
`array_mut_ref!` macros of the `arrayref` crate index the slice
(`&input[0..128]`) and so panic when it is shorter than requested; a panic
is distinct from returning a `ProgramError`. -/
inductive PanicOr (α : Type) where
  | panicked
  | error (e : ProgramError)
  | ok (a : α)
deriving DecidableEq, Repr

/-- Rust `u64::to_le_bytes`: the eight base-256 digits of the value, least
significant first. -/
def u64ToLeBytes (n : Nat) : List Nat :=
  [n % 256, n / 256 % 256, n / 65536 % 256, n / 16777216 % 256,
   n / 4294967296 % 256, n / 1099511627776 % 256,
   n / 281474976710656 % 256, n / 72057594037927936 % 256]

/-- Rust `u64::from_le_bytes` on an 8-byte array, least significant byte
first (any other shape is unreachable: the codec always passes 8 bytes). -/
def u64FromLeBytes (b : List Nat) : Nat :=
  match b with
  | [b0, b1, b2, b3, b4, b5, b6, b7] =>
      b0 + 256 * b1 + 65536 * b2 + 16777216 * b3 + 4294967296 * b4 +
        1099511627776 * b5 + 281474976710656 * b6 +
        72057594037927936 * b7
  | _ => 0

/-- The 128 bytes written by `Fees::pack_into_slice` (fees.rs lines
184-199): the sixteen fields in declaration order, each as eight
little-endian bytes. -/
def packBytes (f : Fees) : List Nat :=
  u64ToLeBytes f.admin_trade_fee_numerator ++
  u64ToLeBytes f.admin_trade_fee_denominator ++
  u64ToLeBytes f.admin_withdraw_fee_numerator ++
  u64ToLeBytes f.admin_withdraw_fee_denominator ++
  u64ToLeBytes f.trade_fee_numerator ++
  u64ToLeBytes f.trade_fee_denominator ++
  u64ToLeBytes f.withdraw_fee_numerator ++
  u64ToLeBytes f.withdraw_fee_denominator ++
  u64ToLeBytes f.reflection_fee_numerator ++
  u64ToLeBytes f.reflection_fee_denominator ++
  u64ToLeBytes f.buyback_fee_numerator ++
  u64ToLeBytes f.buyback_fee_denominator ++
  u64ToLeBytes f.marketing_fee_numerator ++
  u64ToLeBytes f.marketing_fee_denominator ++
  u64ToLeBytes f.developer_fee_numerator ++
  u64ToLeBytes f.developer_fee_denominator

/-- The record decoded by `Fees::unpack_from_slice` (fees.rs lines 125-161)
from a buffer of at least 128 bytes: sixteen consecutive 8-byte
little-endian fields in declaration order. -/
def unpackBytes (b : List Nat) : Fees :=
  { admin_trade_fee_numerator := u64FromLeBytes (b.take 8)
    admin_trade_fee_denominator := u64FromLeBytes ((b.drop 8).take 8)
    admin_withdraw_fee_numerator := u64FromLeBytes ((b.drop 16).take 8)
    admin_withdraw_fee_denominator := u64FromLeBytes ((b.drop 24).take 8)
    trade_fee_numerator := u64FromLeBytes ((b.drop 32).take 8)
    trade_fee_denominator := u64FromLeBytes ((b.drop 40).take 8)
    withdraw_fee_numerator := u64FromLeBytes ((b.drop 48).take 8)
    withdraw_fee_denominator := u64FromLeBytes ((b.drop 56).take 8)
    reflection_fee_numerator := u64FromLeBytes ((b.drop 64).take 8)
    reflection_fee_denominator := u64FromLeBytes ((b.drop 72).take 8)
    buyback_fee_numerator := u64FromLeBytes ((b.drop 80).take 8)
    buyback_fee_denominator := u64FromLeBytes ((b.drop 88).take 8)
    marketing_fee_numerator := u64FromLeBytes ((b.drop 96).take 8)
    marketing_fee_denominator := u64FromLeBytes ((b.drop 104).take 8)
    developer_fee_numerator := u64FromLeBytes ((b.drop 112).take 8)
    developer_fee_denominator := u64FromLeBytes ((b.drop 120).take 8) }

/-- `Fees::unpack_from_slice` (fees.rs lines 122-162): `array_ref![input, 0,
128]` panics when fewer than 128 bytes are available; otherwise the first
128 bytes are decoded field by field with `u64::from_le_bytes` and the
function returns `Ok`.  No error is ever returned and no value validation
is performed. -/
def unpack_from_slice (input : List Nat) : PanicOr Fees :=
  if 128 ≤ input.length then PanicOr.ok (unpackBytes (input.take 128))
  else PanicOr.panicked

/-- `Fees::pack_into_slice` (fees.rs lines 164-200): `array_mut_ref![output,
0, 128]` panics when the destination holds fewer than 128 bytes (before any
byte is written); otherwise the first 128 bytes of the destination are
overwritten with the record and the rest is untouched.  The result is the
destination buffer after the call. -/
def pack_into_slice (f : Fees) (output : List Nat) : PanicOr (List Nat) :=
  if 128 ≤ output.length then PanicOr.ok (packBytes f ++ output.drop 128)
  else PanicOr.panicked

/-- The sixteen fields of a ledger in the order the codec reads and writes
them (the declaration order of the struct). -/
def Fees.fieldList (f : Fees) : List Nat :=
  [f.admin_trade_fee_numerator, f.admin_trade_fee_denominator,
   f.admin_withdraw_fee_numerator, f.admin_withdraw_fee_denominator,
   f.trade_fee_numerator, f.trade_fee_denominator,
   f.withdraw_fee_numerator, f.withdraw_fee_denominator,
   f.reflection_fee_numerator, f.reflection_fee_denominator,
   f.buyback_fee_numerator, f.buyback_fee_denominator,
   f.marketing_fee_numerator, f.marketing_fee_denominator,
   f.developer_fee_numerator, f.developer_fee_denominator]

example :
    pack_into_slice testFees (List.replicate 128 0) =
      PanicOr.ok (packBytes testFees) := by decide

example :
    unpack_from_slice (packBytes testFees) = PanicOr.ok testFees := by decide

example :
    unpack_from_slice (List.replicate 127 0) = (PanicOr.panicked : PanicOr Fees) := by
  decide

/-! ### Helper lemmas about the byte-level codec -/

theorem u64FromLeBytes_u64ToLeBytes (n : Nat) (h : n < 2 ^ 64) :
    u64FromLeBytes (u64ToLeBytes n) = n := by
  simp only [u64ToLeBytes, u64FromLeBytes]
  omega

theorem u64ToLeBytes_u64FromLeBytes (l : List Nat) (h8 : l.length = 8)
    (hb : ∀ x ∈ l, x < 256) : u64ToLeBytes (u64FromLeBytes l) = l := by
  rcases l with _ | ⟨b0, _ | ⟨b1, _ | ⟨b2, _ | ⟨b3, _ | ⟨b4, _ | ⟨b5, _ |
    ⟨b6, _ | ⟨b7, _ | ⟨b8, t⟩⟩⟩⟩⟩⟩⟩⟩⟩ <;>
    simp_all [u64ToLeBytes, u64FromLeBytes]
  omega

theorem u64ToLeBytes_length (n : Nat) : (u64ToLeBytes n).length = 8 := rfl

theorem packBytes_length (f : Fees) : (packBytes f).length = 128 := by
  simp [packBytes, u64ToLeBytes]

theorem take8_toLe_append (n : Nat) (r : List Nat) :
    (u64ToLeBytes n ++ r).take 8 = u64ToLeBytes n := rfl

theorem drop8_toLe_append (n : Nat) (r : List Nat) :
    (u64ToLeBytes n ++ r).drop 8 = r := rfl

theorem take8_toLe (n : Nat) : (u64ToLeBytes n).take 8 = u64ToLeBytes n := rfl

theorem drop16_eq_iter (l : List Nat) : l.drop 16 = (l.drop 8).drop 8 := by
  rw [List.drop_drop]

theorem drop24_eq_iter (l : List Nat) : l.drop 24 = (l.drop 16).drop 8 := by
  rw [List.drop_drop]

theorem drop32_eq_iter (l : List Nat) : l.drop 32 = (l.drop 24).drop 8 := by
  rw [List.drop_drop]

theorem drop40_eq_iter (l : List Nat) : l.drop 40 = (l.drop 32).drop 8 := by
  rw [List.drop_drop]

theorem drop48_eq_iter (l : List Nat) : l.drop 48 = (l.drop 40).drop 8 := by
  rw [List.drop_drop]

theorem drop56_eq_iter (l : List Nat) : l.drop 56 = (l.drop 48).drop 8 := by
  rw [List.drop_drop]

theorem drop64_eq_iter (l : List Nat) : l.drop 64 = (l.drop 56).drop 8 := by
  rw [List.drop_drop]

theorem drop72_eq_iter (l : List Nat) : l.drop 72 = (l.drop 64).drop 8 := by
  rw [List.drop_drop]

theorem drop80_eq_iter (l : List Nat) : l.drop 80 = (l.drop 72).drop 8 := by
  rw [List.drop_drop]

theorem drop88_eq_iter (l : List Nat) : l.drop 88 = (l.drop 80).drop 8 := by
  rw [List.drop_drop]

theorem drop96_eq_iter (l : List Nat) : l.drop 96 = (l.drop 88).drop 8 := by
  rw [List.drop_drop]

theorem drop104_eq_iter (l : List Nat) : l.drop 104 = (l.drop 96).drop 8 := by
  rw [List.drop_drop]

theorem drop112_eq_iter (l : List Nat) : l.drop 112 = (l.drop 104).drop 8 := by
  rw [List.drop_drop]

theorem drop120_eq_iter (l : List Nat) : l.drop 120 = (l.drop 112).drop 8 := by
  rw [List.drop_drop]

theorem unpackBytes_packBytes (f : Fees) (hwf : f.wf) :
    unpackBytes (packBytes f) = f := by
  obtain ⟨h1, h2, h3, h4, h5, h6, h7, h8, h9, h10, h11, h12, h13, h14, h15,
    h16⟩ := hwf
  simp only [unpackBytes, packBytes, drop16_eq_iter, drop24_eq_iter,
    drop32_eq_iter, drop40_eq_iter, drop48_eq_iter, drop56_eq_iter,
    drop64_eq_iter, drop72_eq_iter, drop80_eq_iter, drop88_eq_iter,
    drop96_eq_iter, drop104_eq_iter, drop112_eq_iter, drop120_eq_iter,
    List.append_assoc, take8_toLe_append, drop8_toLe_append, take8_toLe]
  simp only [u64FromLeBytes_u64ToLeBytes _ h1,
    u64FromLeBytes_u64ToLeBytes _ h2, u64FromLeBytes_u64ToLeBytes _ h3,
    u64FromLeBytes_u64ToLeBytes _ h4, u64FromLeBytes_u64ToLeBytes _ h5,
    u64FromLeBytes_u64ToLeBytes _ h6, u64FromLeBytes_u64ToLeBytes _ h7,
    u64FromLeBytes_u64ToLeBytes _ h8, u64FromLeBytes_u64ToLeBytes _ h9,
    u64FromLeBytes_u64ToLeBytes _ h10, u64FromLeBytes_u64ToLeBytes _ h11,
    u64FromLeBytes_u64ToLeBytes _ h12, u64FromLeBytes_u64ToLeBytes _ h13,
    u64FromLeBytes_u64ToLeBytes _ h14, u64FromLeBytes_u64ToLeBytes _ h15,
    u64FromLeBytes_u64ToLeBytes _ h16]

theorem packBytes_unpackBytes (b : List Nat) (hlen : b.length = 128)
    (hb : ∀ x ∈ b, x < 256) : packBytes (unpackBytes b) = b := by
  have hstep : ∀ r : List Nat, 8 ≤ r.length → (∀ x ∈ r, x < 256) →
      u64ToLeBytes (u64FromLeBytes (r.take 8)) ++ r.drop 8 = r := by
    intro r hr hmem
    rw [u64ToLeBytes_u64FromLeBytes _
      (by simp only [List.length_take]; omega)
      (fun x hx => hmem x (List.mem_of_mem_take hx))]
    exact List.take_append_drop 8 r
  have hd : ∀ k : Nat, ∀ x ∈ b.drop k, x < 256 :=
    fun k x hx => hb x (List.mem_of_mem_drop hx)
  have hlen8 : ∀ k : Nat, k ≤ 120 → 8 ≤ (b.drop k).length := by
    intro k hk
    simp only [List.length_drop, hlen]
    omega
  have s15 : u64ToLeBytes (u64FromLeBytes ((b.drop 120).take 8)) =
      b.drop 120 := by
    rw [u64ToLeBytes_u64FromLeBytes _
      (by simp only [List.length_take, List.length_drop, hlen]; omega)
      (fun x hx => hd 120 x (List.mem_of_mem_take hx))]
    exact List.take_of_length_le (by simp only [List.length_drop, hlen]; omega)
  have s14 : u64ToLeBytes (u64FromLeBytes ((b.drop 112).take 8)) ++
      b.drop 120 = b.drop 112 := by
    rw [drop120_eq_iter]; exact hstep _ (hlen8 112 (by omega)) (hd 112)
  have s13 : u64ToLeBytes (u64FromLeBytes ((b.drop 104).take 8)) ++
      b.drop 112 = b.drop 104 := by
    rw [drop112_eq_iter]; exact hstep _ (hlen8 104 (by omega)) (hd 104)
  have s12 : u64ToLeBytes (u64FromLeBytes ((b.drop 96).take 8)) ++
      b.drop 104 = b.drop 96 := by
    rw [drop104_eq_iter]; exact hstep _ (hlen8 96 (by omega)) (hd 96)
  have s11 : u64ToLeBytes (u64FromLeBytes ((b.drop 88).take 8)) ++
      b.drop 96 = b.drop 88 := by
    rw [drop96_eq_iter]; exact hstep _ (hlen8 88 (by omega)) (hd 88)
  have s10 : u64ToLeBytes (u64FromLeBytes ((b.drop 80).take 8)) ++
      b.drop 88 = b.drop 80 := by
    rw [drop88_eq_iter]; exact hstep _ (hlen8 80 (by omega)) (hd 80)
  have s9 : u64ToLeBytes (u64FromLeBytes ((b.drop 72).take 8)) ++
      b.drop 80 = b.drop 72 := by
    rw [drop80_eq_iter]; exact hstep _ (hlen8 72 (by omega)) (hd 72)
  have s8 : u64ToLeBytes (u64FromLeBytes ((b.drop 64).take 8)) ++
      b.drop 72 = b.drop 64 := by
    rw [drop72_eq_iter]; exact hstep _ (hlen8 64 (by omega)) (hd 64)
  have s7 : u64ToLeBytes (u64FromLeBytes ((b.drop 56).take 8)) ++
      b.drop 64 = b.drop 56 := by
    rw [drop64_eq_iter]; exact hstep _ (hlen8 56 (by omega)) (hd 56)
  have s6 : u64ToLeBytes (u64FromLeBytes ((b.drop 48).take 8)) ++
      b.drop 56 = b.drop 48 := by
    rw [drop56_eq_iter]; exact hstep _ (hlen8 48 (by omega)) (hd 48)
  have s5 : u64ToLeBytes (u64FromLeBytes ((b.drop 40).take 8)) ++
      b.drop 48 = b.drop 40 := by
    rw [drop48_eq_iter]; exact hstep _ (hlen8 40 (by omega)) (hd 40)
  have s4 : u64ToLeBytes (u64FromLeBytes ((b.drop 32).take 8)) ++
      b.drop 40 = b.drop 32 := by
    rw [drop40_eq_iter]; exact hstep _ (hlen8 32 (by omega)) (hd 32)
  have s3 : u64ToLeBytes (u64FromLeBytes ((b.drop 24).take 8)) ++
      b.drop 32 = b.drop 24 := by
    rw [drop32_eq_iter]; exact hstep _ (hlen8 24 (by omega)) (hd 24)
  have s2 : u64ToLeBytes (u64FromLeBytes ((b.drop 16).take 8)) ++
      b.drop 24 = b.drop 16 := by
    rw [drop24_eq_iter]; exact hstep _ (hlen8 16 (by omega)) (hd 16)
  have s1 : u64ToLeBytes (u64FromLeBytes ((b.drop 8).take 8)) ++
      b.drop 16 = b.drop 8 := by
    rw [drop16_eq_iter]; exact hstep _ (hlen8 8 (by omega)) (hd 8)
  have s0 : u64ToLeBytes (u64FromLeBytes (b.take 8)) ++ b.drop 8 = b :=
    hstep b (by omega) hb
  simp only [packBytes, unpackBytes, List.append_assoc]
  rw [s15, s14, s13, s12, s11, s10, s9, s8, s7, s6, s5, s4, s3, s2, s1]
  exact s0

/-- The all-zero ledger (`Fees::default()`): every fee category is
0/0, so every fee application fails on a zero denominator. -/
def zeroFees : Fees :=
  { admin_trade_fee_numerator := 0
    admin_trade_fee_denominator := 0
    admin_withdraw_fee_numerator := 0
    admin_withdraw_fee_denominator := 0
    trade_fee_numerator := 0
    trade_fee_denominator := 0
    withdraw_fee_numerator := 0
    withdraw_fee_denominator := 0
    reflection_fee_numerator := 0
    reflection_fee_denominator := 0
    buyback_fee_numerator := 0
    buyback_fee_denominator := 0
    marketing_fee_numerator := 0
    marketing_fee_denominator := 0
    developer_fee_numerator := 0
    developer_fee_denominator := 0 }

theorem simpleFee_eq (num den a : Nat) (hden : den ≠ 0)
    (hov : a * num < 2 ^ 256) :
    (checkedMul256 a num).bind (fun p => checkedDiv256 p den) =
      some (a * num / den) := by
  unfold checkedMul256 checkedDiv256
  rw [if_pos hov]
  simp [hden]

theorem simpleFee_none_iff (num den a : Nat) :
    (checkedMul256 a num).bind (fun p => checkedDiv256 p den) = none ↔
      2 ^ 256 ≤ a * num ∨ den = 0 := by
  unfold checkedMul256 checkedDiv256
  split_ifs with h1 h2 <;> simp <;> omega

/-! ### Claim theorems -/

/-- C1: for every ledger and amount, each of the eight simple fee functions
returns `some (floor (amount * numerator / denominator))` whenever the
corresponding denominator is non-zero and `amount * numerator` does not
exceed `U256::MAX`; in particular `trade_fee` with numerator 5,
denominator 6 and amount 1000000000 returns 833333333. -/
theorem simple_fees_floor (f : Fees) (a : Nat) :
    (f.trade_fee_denominator ≠ 0 → a * f.trade_fee_numerator < 2 ^ 256 →
      f.trade_fee a =
        some (a * f.trade_fee_numerator / f.trade_fee_denominator)) ∧
    (f.admin_trade_fee_denominator ≠ 0 →
      a * f.admin_trade_fee_numerator < 2 ^ 256 →
      f.admin_trade_fee a =
        some (a * f.admin_trade_fee_numerator /
          f.admin_trade_fee_denominator)) ∧
    (f.withdraw_fee_denominator ≠ 0 →
      a * f.withdraw_fee_numerator < 2 ^ 256 →
      f.withdraw_fee a =
        some (a * f.withdraw_fee_numerator / f.withdraw_fee_denominator)) ∧
    (f.admin_withdraw_fee_denominator ≠ 0 →
      a * f.admin_withdraw_fee_numerator < 2 ^ 256 →
      f.admin_withdraw_fee a =
        some (a * f.admin_withdraw_fee_numerator /
          f.admin_withdraw_fee_denominator)) ∧
    (f.reflection_fee_denominator ≠ 0 →
      a * f.reflection_fee_numerator < 2 ^ 256 →
      f.reflection_fee a =
        some (a * f.reflection_fee_numerator /
          f.reflection_fee_denominator)) ∧
    (f.buyback_fee_denominator ≠ 0 →
      a * f.buyback_fee_numerator < 2 ^ 256 →
      f.buyback_fee a =
        some (a * f.buyback_fee_numerator / f.buyback_fee_denominator)) ∧
    (f.marketing_fee_denominator ≠ 0 →
      a * f.marketing_fee_numerator < 2 ^ 256 →
      f.marketing_fee a =
        some (a * f.marketing_fee_numerator /
          f.marketing_fee_denominator)) ∧
    (f.developer_fee_denominator ≠ 0 →
      a * f.developer_fee_numerator < 2 ^ 256 →
      f.developer_fee a =
        some (a * f.developer_fee_numerator /
          f.developer_fee_denominator)) ∧
    testFees.trade_fee 1000000000 = some 833333333 := by
  refine ⟨?_, ?_, ?_, ?_, ?_, ?_, ?_, ?_, by decide⟩ <;>
    exact fun h1 h2 => simpleFee_eq _ _ _ h1 h2

theorem simple_fees_floor_witness :
    testFees.trade_fee 1000000000 = some 833333333 := by
  have h := (simple_fees_floor testFees 1000000000).1 (by decide) (by decide)
  simpa using h

/-- C2: for every ledger and amount, each of the eight simple fee functions
returns `none` exactly when `amount * numerator` exceeds `U256::MAX` or the
denominator is zero; in particular on the all-zero ledger every fee fails
even at amount 0 (no sentinel `some 0` is returned). -/
theorem simple_fees_none_iff (f : Fees) (a : Nat) :
    (f.trade_fee a = none ↔
      2 ^ 256 ≤ a * f.trade_fee_numerator ∨ f.trade_fee_denominator = 0) ∧
    (f.admin_trade_fee a = none ↔
      2 ^ 256 ≤ a * f.admin_trade_fee_numerator ∨
        f.admin_trade_fee_denominator = 0) ∧
    (f.withdraw_fee a = none ↔
      2 ^ 256 ≤ a * f.withdraw_fee_numerator ∨
        f.withdraw_fee_denominator = 0) ∧
    (f.admin_withdraw_fee a = none ↔
      2 ^ 256 ≤ a * f.admin_withdraw_fee_numerator ∨
        f.admin_withdraw_fee_denominator = 0) ∧
    (f.reflection_fee a = none ↔
      2 ^ 256 ≤ a * f.reflection_fee_numerator ∨
        f.reflection_fee_denominator = 0) ∧
    (f.buyback_fee a = none ↔
      2 ^ 256 ≤ a * f.buyback_fee_numerator ∨
        f.buyback_fee_denominator = 0) ∧
    (f.marketing_fee a = none ↔
      2 ^ 256 ≤ a * f.marketing_fee_numerator ∨
        f.marketing_fee_denominator = 0) ∧
    (f.developer_fee a = none ↔
      2 ^ 256 ≤ a * f.developer_fee_numerator ∨
        f.developer_fee_denominator = 0) ∧
    zeroFees.trade_fee 0 = none := by
  refine ⟨?_, ?_, ?_, ?_, ?_, ?_, ?_, ?_, by decide⟩ <;>
    exact simpleFee_none_iff _ _ _

/-- C6: for every ledger and amount, `normalized_trade_fee` with
`n_coins = 1` returns the explicit failure `none`: the step-1 divisor
`(n_coins - 1) * 4` is zero, and `u64::checked_div` reports it. -/
theorem normalized_trade_fee_one_coin (f : Fees) (a : Nat) :
    f.normalized_trade_fee 1 a = none := by
  unfold Fees.normalized_trade_fee checkedMul64
  by_cases hm : f.trade_fee_numerator * 1 < 2 ^ 64
  · rw [if_pos hm]; rfl
  · rw [if_neg hm]; rfl

/-- C9: for every ledger and amount, `normalized_trade_fee` with
`n_coins = 0` returns `none`: the checked subtraction `n_coins - 1`
underflows before any division is attempted. -/
theorem normalized_trade_fee_zero_coins (f : Fees) (a : Nat) :
    f.normalized_trade_fee 0 a = none := by
  unfold Fees.normalized_trade_fee checkedMul64
  have hm : f.trade_fee_numerator * 0 < 2 ^ 64 := by simp
  rw [if_pos hm]
  rfl

/-- C5: `normalized_trade_fee` computes
`adjusted = floor (trade_fee_numerator * n_coins / (4 * (n_coins - 1)))`
(multiply first, then divide by the combined divisor) and then
`floor (amount * adjusted / trade_fee_denominator)`, whenever no step
fails (`n_coins ≥ 2`, the `u64` products fit, the denominator is
non-zero, and the final product fits in `U256`); in particular
`n_coins = 2`, numerator 5, denominator 6, amount 1000000000 yields
333333333. -/
theorem normalized_trade_fee_exact (f : Fees) (n a : Nat) :
    (2 ≤ n → f.trade_fee_numerator * n < 2 ^ 64 → (n - 1) * 4 < 2 ^ 64 →
      f.trade_fee_denominator ≠ 0 →
      a * (f.trade_fee_numerator * n / (4 * (n - 1))) < 2 ^ 256 →
      f.normalized_trade_fee n a =
        some (a * (f.trade_fee_numerator * n / (4 * (n - 1))) /
          f.trade_fee_denominator)) ∧
    testFees.normalized_trade_fee 2 1000000000 = some 333333333 := by
  refine ⟨?_, by decide⟩
  intro h2 hm hd4 hden hov
  rw [Nat.mul_comm 4 (n - 1)] at hov ⊢
  have h1n : (1:Nat) ≤ n := by omega
  have hne : ¬((n - 1) * 4 = 0) := by omega
  unfold Fees.normalized_trade_fee checkedMul64 checkedSub64 checkedDiv64
    checkedMul256 checkedDiv256
  rw [if_pos hm]
  simp only [Option.some_bind]
  rw [if_pos h1n]
  simp only [Option.some_bind]
  rw [if_pos hd4]
  simp only [Option.some_bind]
  rw [if_neg hne]
  simp only [Option.some_bind]
  rw [if_pos hov]
  simp only [Option.some_bind]
  rw [if_neg hden]

theorem normalized_trade_fee_exact_witness :
    testFees.normalized_trade_fee 2 1000000000 =
      some (1000000000 * (testFees.trade_fee_numerator * 2 / (4 * (2 - 1))) /
        testFees.trade_fee_denominator) :=
  (normalized_trade_fee_exact testFees 2 1000000000).1 (by decide) (by decide)
    (by decide) (by decide) (by decide)

/-- C8: every fee function is a pure mapping, hence deterministic: two
calls on equal ledgers with equal amounts (and equal `n_coins` for the
normalized variant) return equal outcomes.  Side-effect freedom holds by
construction of the embedding: each Rust method takes `&self` and returns
a fresh `Option` without touching any other state, and is modelled here
as a function of the ledger value. -/
theorem fees_deterministic (f g : Fees) (a b n m : Nat)
    (hf : f = g) (ha : a = b) (hn : n = m) :
    f.trade_fee a = g.trade_fee b ∧
    f.admin_trade_fee a = g.admin_trade_fee b ∧
    f.withdraw_fee a = g.withdraw_fee b ∧
    f.admin_withdraw_fee a = g.admin_withdraw_fee b ∧
    f.reflection_fee a = g.reflection_fee b ∧
    f.buyback_fee a = g.buyback_fee b ∧
    f.marketing_fee a = g.marketing_fee b ∧
    f.developer_fee a = g.developer_fee b ∧
    f.normalized_trade_fee n a = g.normalized_trade_fee m b := by
  subst hf
  subst ha
  subst hn
  exact ⟨rfl, rfl, rfl, rfl, rfl, rfl, rfl, rfl, rfl⟩

theorem fees_deterministic_witness :
    testFees.trade_fee 1000000000 = testFees.trade_fee 1000000000 ∧
    testFees.admin_trade_fee 1000000000 =
      testFees.admin_trade_fee 1000000000 ∧
    testFees.withdraw_fee 1000000000 = testFees.withdraw_fee 1000000000 ∧
    testFees.admin_withdraw_fee 1000000000 =
      testFees.admin_withdraw_fee 1000000000 ∧
    testFees.reflection_fee 1000000000 =
      testFees.reflection_fee 1000000000 ∧
    testFees.buyback_fee 1000000000 = testFees.buyback_fee 1000000000 ∧
    testFees.marketing_fee 1000000000 = testFees.marketing_fee 1000000000 ∧
    testFees.developer_fee 1000000000 = testFees.developer_fee 1000000000 ∧
    testFees.normalized_trade_fee 2 1000000000 =
      testFees.normalized_trade_fee 2 1000000000 :=
  fees_deterministic testFees testFees 1000000000 1000000000 2 2 rfl rfl rfl

/-- C3: packing a representable ledger into a 128-byte buffer and decoding
the result succeeds and returns an equal ledger. -/
theorem pack_unpack_roundtrip (f : Fees) (out : List Nat)
    (hwf : f.wf) (hout : out.length = 128) :
    ∃ b, pack_into_slice f out = PanicOr.ok b ∧
      unpack_from_slice b = PanicOr.ok f := by
  refine ⟨packBytes f, ?_, ?_⟩
  · unfold pack_into_slice
    rw [if_pos (by omega), List.drop_eq_nil_of_le (by omega),
      List.append_nil]
  · unfold unpack_from_slice
    rw [if_pos (by simp [packBytes_length]),
      List.take_of_length_le (by simp [packBytes_length]),
      unpackBytes_packBytes f hwf]

theorem pack_unpack_roundtrip_witness :
    ∃ b, pack_into_slice testFees (List.replicate 128 0) = PanicOr.ok b ∧
      unpack_from_slice b = PanicOr.ok testFees :=
  pack_unpack_roundtrip testFees (List.replicate 128 0) (by decide)
    (by decide)

/-- C4 counterexample: on a 127-byte input, `unpack_from_slice` does not
fail with the format error `ProgramError::InvalidAccountData`: the
`array_ref!` slice indexing panics instead.  The format error for short
buffers is produced by the `Pack` trait's provided length-checking
wrappers (`unpack`, `unpack_unchecked`, `pack`), not by
`unpack_from_slice` itself. -/
theorem short_unpack_not_format_error :
    unpack_from_slice (List.replicate 127 0) = PanicOr.panicked ∧
    unpack_from_slice (List.replicate 127 0) ≠
      PanicOr.error ProgramError.invalidAccountData := by
  decide

/-- C4 (amended): for every input shorter than 128 bytes,
`unpack_from_slice` fails by panicking and produces no partial record; for
every destination shorter than 128 bytes, `pack_into_slice` fails by
panicking before writing any byte, rather than writing a partial
record. -/
theorem short_buffer_panics :
    (∀ input : List Nat, input.length < 128 →
      unpack_from_slice input = PanicOr.panicked) ∧
    (∀ (f : Fees) (out : List Nat), out.length < 128 →
      pack_into_slice f out = PanicOr.panicked) := by
  constructor
  · intro input h
    unfold unpack_from_slice
    rw [if_neg (by omega)]
  · intro f out h
    unfold pack_into_slice
    rw [if_neg (by omega)]

theorem short_buffer_panics_witness :
    unpack_from_slice (List.replicate 127 0) = PanicOr.panicked ∧
    pack_into_slice testFees (List.replicate 127 0) = PanicOr.panicked :=
  ⟨short_buffer_panics.1 (List.replicate 127 0) (by decide),
   short_buffer_panics.2 testFees (List.replicate 127 0) (by decide)⟩

/-- C7: the packed record is exactly 128 bytes; byte range
`[8*i, 8*i + 8)` holds the little-endian 8-byte encoding of the `i`-th
field in the order `admin_trade` num/den, `admin_withdraw` num/den,
`trade` num/den, `withdraw` num/den, `reflection` num/den, `buyback`
num/den, `marketing` num/den, `developer` num/den (`Fees.fieldList`);
and `unpack_from_slice` reads the `i`-th field from the same byte range
with the same width and endianness. -/
theorem codec_layout (f : Fees) (b : List Nat) (i : Fin 16) :
    (packBytes f).length = 128 ∧
    (b.length = 128 → pack_into_slice f b = PanicOr.ok (packBytes f)) ∧
    ((packBytes f).drop (8 * i.val)).take 8 =
      u64ToLeBytes (f.fieldList.getD i.val 0) ∧
    (b.length = 128 →
      unpack_from_slice b = PanicOr.ok (unpackBytes b) ∧
      (unpackBytes b).fieldList.getD i.val 0 =
        u64FromLeBytes ((b.drop (8 * i.val)).take 8)) := by
  refine ⟨packBytes_length f, ?_, ?_, ?_⟩
  · intro hb
    unfold pack_into_slice
    rw [if_pos (by omega), List.drop_eq_nil_of_le (by omega),
      List.append_nil]
  · fin_cases i <;>
      simp [packBytes, Fees.fieldList, List.append_assoc, drop16_eq_iter,
        drop24_eq_iter, drop32_eq_iter, drop40_eq_iter, drop48_eq_iter,
        drop56_eq_iter, drop64_eq_iter, drop72_eq_iter, drop80_eq_iter,
        drop88_eq_iter, drop96_eq_iter, drop104_eq_iter, drop112_eq_iter,
        drop120_eq_iter, take8_toLe_append, drop8_toLe_append, take8_toLe]
  · intro hb
    refine ⟨?_, ?_⟩
    · unfold unpack_from_slice
      rw [if_pos (by omega), List.take_of_length_le (by omega)]
    · fin_cases i <;> simp [unpackBytes, Fees.fieldList]

theorem codec_layout_witness :
    unpack_from_slice (List.replicate 128 0) =
      PanicOr.ok (unpackBytes (List.replicate 128 0)) ∧
    (unpackBytes (List.replicate 128 0)).fieldList.getD 0 0 =
      u64FromLeBytes (((List.replicate 128 (0:Nat)).drop (8 * 0)).take 8) :=
  (codec_layout testFees (List.replicate 128 0) 0).2.2.2 (by decide)

/-- C10: the codec is a bijection on 128-byte blocks: every 128-byte
buffer decodes successfully with no value validation, and re-packing the
decoded ledger into any 128-byte destination reproduces the buffer byte
for byte. -/
theorem unpack_pack_bijection (b : List Nat) (hlen : b.length = 128)
    (hb : ∀ x ∈ b, x < 256) :
    ∃ f, unpack_from_slice b = PanicOr.ok f ∧
      ∀ out : List Nat, out.length = 128 →
        pack_into_slice f out = PanicOr.ok b := by
  refine ⟨unpackBytes b, ?_, ?_⟩
  · unfold unpack_from_slice
    rw [if_pos (by omega), List.take_of_length_le (by omega)]
  · intro out hout
    unfold pack_into_slice
    rw [if_pos (by omega), List.drop_eq_nil_of_le (by omega),
      List.append_nil, packBytes_unpackBytes b hlen hb]

theorem unpack_pack_bijection_witness :
    ∃ f, unpack_from_slice (List.replicate 128 0) = PanicOr.ok f ∧
      ∀ out : List Nat, out.length = 128 →
        pack_into_slice f out = PanicOr.ok (List.replicate 128 0) :=
  unpack_pack_bijection (List.replicate 128 0) (by decide) (by decide)

end BabyPunkSwap
